import Mathlib

/-
Shallow embedding of the graph-structured information-propagation core of the
repository (src/wallace/models.py) and of the serializable-transaction retry
wrapper (src/dallinger/db.py).

Modelling conventions:
- Each SQLAlchemy model class becomes a Lean structure holding exactly the
  columns the claims touch.  The database session is an explicit `Store`
  value: lists of rows, threaded through every operation.
- `new_uuid()` (an opaque fresh hex string) is modelled by a counter `fresh`
  carried in the `Store`; `timenow()` (a string-sortable timestamp) is
  modelled by a `Nat` passed explicitly as `now` to each operation that
  stamps a time.  Timestamp comparison in queries is Nat `≤`, mirroring the
  string-sortable format of `DATETIME_FMT`.
- Python exceptions become an explicit error component: a mutating operation
  returns `Store × Option Err`; errors abort further work but keep the
  mutations already performed, exactly as a raised exception does inside a
  session.  The `Err` constructors name the raise sites of the source, with
  the spec's taxonomy names: the `ValueError` in `Info._write_once` is
  `writeOnceViolation`, the ownership `ValueError` in `Node.transmit` is
  `ownership`, the not-connected `ValueError` is `noConnection`, and the
  `NameError` raised by `Node.successors2` / `Node.predecessors2` (they
  evaluate `downstream_nodes(self, Agent)` / `upstream_nodes(self, Agent)`,
  but neither name exists at module level: both are class-level properties,
  so the call raises `NameError` before anything else happens) is
  `nameError`.
-/

namespace Wallace

/-- Node status enum of models.py: Enum("alive", "dead", "failed"). -/
inductive NodeStatus
  | alive
  | dead
  | failed
deriving DecidableEq, Repr

/-- Vector status enum of models.py: Enum("alive", "dead"). -/
inductive VectorStatus
  | alive
  | dead
deriving DecidableEq, Repr

/-- Polymorphic identity of a node row: "base", "agent" or "generic_source". -/
inductive NodeType
  | base
  | agent
  | source
deriving DecidableEq, Repr

/-- A row of the `node` table (class Node of models.py), restricted to the
columns the claims touch. -/
structure Node where
  uuid : String
  type : NodeType
  creation_time : Nat
  status : NodeStatus
  time_of_death : Option Nat
  network_uuid : Option String
  participant_uuid : Option String
deriving DecidableEq, Repr

/-- A row of the `vector` table (class Vector of models.py).  A Vector has no
stored network column: its network is an association proxy through its origin
node. -/
structure Vector where
  uuid : String
  origin_uuid : String
  destination_uuid : String
  status : VectorStatus
  time_of_death : Option Nat
deriving DecidableEq, Repr

/-- A row of the `info` table (class Info of models.py). -/
structure Info where
  uuid : String
  origin_uuid : String
  creation_time : Nat
  contents : Option String
deriving DecidableEq, Repr

/-- A row of the `transmission` table (class Transmission of models.py).  The
origin is not stored: it is an association proxy through the Info. -/
structure Transmission where
  uuid : String
  info_uuid : String
  transmit_time : Nat
  receive_time : Option Nat
  destination_uuid : String
deriving DecidableEq, Repr

/-- A row of the `transformation` table (class Transformation of models.py). -/
structure Transformation where
  uuid : String
  node_uuid : String
  info_in_uuid : String
  info_out_uuid : String
  transform_time : Nat
deriving DecidableEq, Repr

/-- A row of the `network` table (class Network of models.py). -/
structure Network where
  uuid : String
  creation_time : Nat
deriving DecidableEq, Repr

/-- The database session: all persisted rows, plus the fresh-uuid counter that
models `new_uuid()`. -/
structure Store where
  nodes : List Node
  vectors : List Vector
  infos : List Info
  transmissions : List Transmission
  transformations : List Transformation
  fresh : Nat
deriving DecidableEq, Repr

/-- The distinguishable failures of the embedded operations.  Each constructor
names one raise site of the source (see the header comment). -/
inductive Err
  | writeOnceViolation
  | ownership
  | noConnection
  | nameError
  | whatNone
  | toWhomNone
deriving DecidableEq, Repr

def Store.findNode (s : Store) (u : String) : Option Node :=
  s.nodes.find? (fun m => m.uuid == u)

def Store.getInfo (s : Store) (u : String) : Option Info :=
  s.infos.find? (fun i => i.uuid == u)

/-- `Info._write_once` (models.py:478-483), together with the assignment it
validates.  `existing = getattr(self, key)`; if `existing is not None` the
validator raises `ValueError("The contents of an info is write-once.")`
before the assignment happens, so on error the record is returned unchanged;
otherwise the new value (null or not) is stored. -/
def Info.assign_contents (i : Info) (value : Option String) : Info × Option Err :=
  match i.contents with
  | some _ => (i, some Err.writeOnceViolation)
  | none => ({ i with contents := value }, none)

/-- `Node.kill` (models.py:66-68): unconditionally set status to "dead" and
stamp time_of_death with `timenow()`. -/
def Node.kill (n : Node) (now : Nat) : Node :=
  { n with status := NodeStatus.dead, time_of_death := some now }

/-- `Node.fail` (models.py:70-72): unconditionally set status to "failed" and
stamp time_of_death with `timenow()`. -/
def Node.fail (n : Node) (now : Nat) : Node :=
  { n with status := NodeStatus.failed, time_of_death := some now }

/-- `node.kill()` acting on the session: the row with the given uuid is
updated in place, every other row untouched. -/
def Store.killNode (s : Store) (u : String) (now : Nat) : Store :=
  { s with nodes := s.nodes.map (fun m => if m.uuid == u then Node.kill m now else m) }

/-- `node.fail()` acting on the session. -/
def Store.failNode (s : Store) (u : String) (now : Nat) : Store :=
  { s with nodes := s.nodes.map (fun m => if m.uuid == u then Node.fail m now else m) }

/-- The backref `Node.outgoing_vectors` (models.py:307-309): all Vector rows
whose origin is this node, in table order (no order_by). -/
def Node.outgoing_vectors (n : Node) (s : Store) : List Vector :=
  s.vectors.filter (fun v => v.origin_uuid == n.uuid)

/-- The backref `Node.incoming_vectors` (models.py:314-316). -/
def Node.incoming_vectors (n : Node) (s : Store) : List Vector :=
  s.vectors.filter (fun v => v.destination_uuid == n.uuid)

/-- `Node.outdegree` (models.py:203-206): `len(self.outgoing_vectors)`. -/
def Node.outdegree (n : Node) (s : Store) : Nat :=
  (Node.outgoing_vectors n s).length

/-- `Node.indegree` (models.py:214-217): `len(self.incoming_vectors)`. -/
def Node.indegree (n : Node) (s : Store) : Nat :=
  (Node.incoming_vectors n s).length

/-- The `Node.successors` relationship (models.py:75-81): destination nodes of
the vectors whose origin is this node, one entry per vector row (parallel
edges give duplicates); the join drops a vector whose destination row is
missing. -/
def Node.successors (n : Node) (s : Store) : List Node :=
  (Node.outgoing_vectors n s).filterMap (fun v => Store.findNode s v.destination_uuid)

/-- The `predecessors` backref of the `successors` relationship: origin nodes
of the vectors whose destination is this node. -/
def Node.predecessors (n : Node) (s : Store) : List Node :=
  (Node.incoming_vectors n s).filterMap (fun v => Store.findNode s v.origin_uuid)

/-- `Node.downstream_nodes` (models.py:91-97).  Declared as a property, so an
access always runs with `type=None`, which the body replaces by `Node`; it
returns `v.destination` for each outgoing vector. -/
def Node.downstream_nodes (n : Node) (s : Store) : List Node :=
  (Node.outgoing_vectors n s).filterMap (fun v => Store.findNode s v.destination_uuid)

/-- `Node.upstream_nodes` (models.py:99-105).  Declared as a property, so an
access always runs with `type=None`, which the body replaces by `Node`.  Note
the body returns `v.destination` for each INCOMING vector — that is, the node
itself once per incoming edge — not `v.origin` as the commented-out code in
`predecessors2` (models.py:111-113) intends. -/
def Node.upstream_nodes (n : Node) (s : Store) : List Node :=
  (Node.incoming_vectors n s).filterMap (fun v => Store.findNode s v.destination_uuid)

/-- `Node.successors2` (models.py:83-89): prints a deprecation notice, then
evaluates `downstream_nodes(self, Agent)`.  `downstream_nodes` is a
class-level property and not a module-level name, so the expression raises
`NameError` on every call. -/
def Node.successors2 (_n : Node) (_s : Store) : Except Err (List Node) :=
  Except.error Err.nameError

/-- `Node.predecessors2` (models.py:107-113): prints a deprecation notice,
then evaluates `upstream_nodes(self, Agent)`, which likewise raises
`NameError` on every call. -/
def Node.predecessors2 (_n : Node) (_s : Store) : Except Err (List Node) :=
  Except.error Err.nameError

/-- `Node.has_connection_to` (models.py:225-228):
`return other_node in self.successors2` — evaluating `self.successors2`
propagates its `NameError`; the membership test is never reached. -/
def Node.has_connection_to (n : Node) (other : Node) (s : Store) : Except Err Bool :=
  (Node.successors2 n s).map (fun succs => decide (other ∈ succs))

/-- `Node.has_connection_from` (models.py:230-232):
`return other_node in self.predecessors`. -/
def Node.has_connection_from (n : Node) (other : Node) (s : Store) : Bool :=
  decide (other ∈ Node.predecessors n s)

/-- `Node.connect_to` (models.py:118-122): create a Vector from self to
other_node and append it to the session; return the new vector.  The fresh
uuid comes from the `fresh` counter that models `new_uuid()`. -/
def Node.connect_to (n : Node) (other : Node) (s : Store) : Vector × Store :=
  let v : Vector :=
    { uuid := "v" ++ toString s.fresh
      origin_uuid := n.uuid
      destination_uuid := other.uuid
      status := VectorStatus.alive
      time_of_death := none }
  (v, { s with vectors := s.vectors ++ [v], fresh := s.fresh + 1 })

/-- `Node.pending_transmissions` (models.py:250-257): Transmission rows with
this node as destination and a null receive_time, ordered by transmit_time. -/
def Node.pending_transmissions (n : Node) (s : Store) : List Transmission :=
  (s.transmissions.filter
      (fun t => t.destination_uuid == n.uuid && t.receive_time == none)).insertionSort
    (fun a b => a.transmit_time ≤ b.transmit_time)

/-- `Node.receive_all` (models.py:196-201).  The loop walks the fetched
pending list and runs `transmission.receive_time = timenow()` followed by
`transmission.mark_received()` on each (two stamps with the current clock;
the call collapses them to the single `now` argument).  Because the pending
list is exactly the rows satisfying the destination/unreceived condition,
the loop is embedded as a conditional map over the transmission table.
Finally `update` is invoked once with `[t.info for t in pending]`; the base
`update` is an abstract hook (it raises NotImplementedError unless a
subclass overrides it), so the delivered list is returned as the second
component. -/
def Node.receive_all (n : Node) (now : Nat) (s : Store) : Store × List (Option Info) :=
  let pending := Node.pending_transmissions n s
  let s1 : Store :=
    { s with
      transmissions := s.transmissions.map (fun t =>
        if t.destination_uuid == n.uuid && t.receive_time == none then
          { t with receive_time := some now }
        else t) }
  (s1, pending.map (fun t => Store.getInfo s t.info_uuid))

/-- A Node class used as a transmit argument: `Node`, `Agent` or `Source`. -/
inductive NodeCls
  | node
  | agent
  | source
deriving DecidableEq, Repr

/-- Python `isinstance(m, c)` for the three node classes of models.py. -/
def isinstanceOf (m : Node) (c : NodeCls) : Bool :=
  match c with
  | NodeCls.node => true
  | NodeCls.agent => m.type == NodeType.agent
  | NodeCls.source => m.type == NodeType.source

/-- One non-list `what` argument of `Node.transmit`: a concrete Info instance
or the class `Info` itself. -/
inductive WhatElem
  | inst : Info → WhatElem
  | infoCls : WhatElem
deriving Repr

/-- A `what` argument as the docstring of `transmit` describes it: "an Info or
a class of Info, or a list containing the two".  (An arbitrarily nested list
would recurse element by element through the same branches.) -/
inductive WhatArg
  | elem : WhatElem → WhatArg
  | listArg : List WhatElem → WhatArg
deriving Repr

/-- One non-list `to_whom` argument: a concrete Node instance or a class of
Nodes. -/
inductive ToWhomElem
  | inst : Node → ToWhomElem
  | nodeCls : NodeCls → ToWhomElem
deriving Repr

/-- A `to_whom` argument: "a Node you are connected to or a class of Nodes,
or a list containing the two". -/
inductive ToWhomArg
  | elem : ToWhomElem → ToWhomArg
  | listArg : List ToWhomElem → ToWhomArg
deriving Repr

/-- The leaf of the `transmit` recursion (models.py:171-177): `to_whom` is a
concrete Node.  `if not self.has_connection_to(to_whom)` raise the
not-connected `ValueError`, else create
`Transmission(info=what, destination=to_whom)` and append it to the Info's
transmission list.  `has_connection_to` itself raises `NameError` (see
above), which propagates before the check can answer. -/
def Node.transmit_to_node (n : Node) (i : Info) (w : Node) (now : Nat) (s : Store) :
    Store × Option Err :=
  match Node.has_connection_to n w s with
  | Except.error e => (s, some e)
  | Except.ok b =>
    if b then
      let t : Transmission :=
        { uuid := "t" ++ toString s.fresh
          info_uuid := i.uuid
          transmit_time := now
          receive_time := none
          destination_uuid := w.uuid }
      ({ s with transmissions := s.transmissions ++ [t], fresh := s.fresh + 1 }, none)
    else (s, some Err.noConnection)

/-- Sequential fan-out over a resolved list, as the per-element recursion of
`transmit` does it: run the elements left to right, threading the session; a
raised exception aborts the remaining elements but keeps earlier effects. -/
def runSeq {α : Type} (f : α → Store → Store × Option Err) :
    List α → Store → Store × Option Err
  | [], s => (s, none)
  | x :: xs, s =>
    match f x s with
    | (s1, none) => runSeq f xs s1
    | (s1, some e) => (s1, some e)

/-- Resolution of a class-valued `to_whom` (models.py:168-170):
`[w for w in self.successors if isinstance(w, to_whom)]`. -/
def Node.resolve_to_class (n : Node) (c : NodeCls) (s : Store) : List Node :=
  (Node.successors n s).filter (fun w => isinstanceOf w c)

/-- Dispatch of one non-list `to_whom` value for a fixed concrete Info.  A
class resolves to the filtered successor list and then recurses per element,
which for concrete nodes is exactly the sequential fan-out of the leaf. -/
def Node.transmit_info_to_elem (n : Node) (i : Info) (now : Nat) (e : ToWhomElem)
    (s : Store) : Store × Option Err :=
  match e with
  | ToWhomElem.inst w => Node.transmit_to_node n i w now s
  | ToWhomElem.nodeCls c =>
    runSeq (fun w s1 => Node.transmit_to_node n i w now s1) (Node.resolve_to_class n c s) s

/-- `Node._to_whom` (models.py:186-187): the default policy hook returns the
class `Node`. -/
def Node._to_whom : Option ToWhomArg :=
  some (ToWhomArg.elem (ToWhomElem.nodeCls NodeCls.node))

/-- The `isinstance(what, Info)` branch of `transmit` (models.py:153-179):
first the ownership check (`what.origin_uuid != self.uuid` raises the
ownership `ValueError`), then `to_whom` is resolved: `None` consults the
`_to_whom()` hook (raising if the hook yields Python `None`), a list recurses
per element, a class or instance dispatches as above. -/
def Node.transmit_info (n : Node) (i : Info) (to_whom : Option ToWhomArg) (now : Nat)
    (s : Store) : Store × Option Err :=
  if i.origin_uuid != n.uuid then (s, some Err.ownership)
  else
    match to_whom with
    | none =>
      match Node._to_whom with
      | none => (s, some Err.toWhomNone)
      | some (ToWhomArg.elem e) => Node.transmit_info_to_elem n i now e s
      | some (ToWhomArg.listArg xs) =>
        runSeq (fun e s1 => Node.transmit_info_to_elem n i now e s1) xs s
    | some (ToWhomArg.elem e) => Node.transmit_info_to_elem n i now e s
    | some (ToWhomArg.listArg xs) =>
      runSeq (fun e s1 => Node.transmit_info_to_elem n i now e s1) xs s

/-- Resolution of a class-valued `what` (models.py:146-152): all Info rows
authored by this node, ordered by creation time most-recent first. -/
def Node.infos_by_recency (n : Node) (s : Store) : List Info :=
  (s.infos.filter (fun i => i.origin_uuid == n.uuid)).insertionSort
    (fun a b => b.creation_time ≤ a.creation_time)

/-- `Node._what` (models.py:183-184): the default policy hook returns the
class `Info`. -/
def Node._what : Option WhatArg :=
  some (WhatArg.elem WhatElem.infoCls)

/-- Dispatch of one non-list `what` value: an instance goes to the Info
branch; the class `Info` resolves to the authored-Info list and recurses per
element. -/
def Node.transmit_what_elem (n : Node) (e : WhatElem) (to_whom : Option ToWhomArg)
    (now : Nat) (s : Store) : Store × Option Err :=
  match e with
  | WhatElem.inst i => Node.transmit_info n i to_whom now s
  | WhatElem.infoCls =>
    runSeq (fun i s1 => Node.transmit_info n i to_whom now s1) (Node.infos_by_recency n s) s

/-- `Node.transmit` (models.py:130-181).  `what=None` consults the `_what()`
hook (raising if the hook yields Python `None`; the default returns the class
`Info`); a list recurses per element; otherwise dispatch as above. -/
def Node.transmit (n : Node) (what : Option WhatArg) (to_whom : Option ToWhomArg)
    (now : Nat) (s : Store) : Store × Option Err :=
  match what with
  | none =>
    match Node._what with
    | none => (s, some Err.whatNone)
    | some (WhatArg.elem e) => Node.transmit_what_elem n e to_whom now s
    | some (WhatArg.listArg xs) =>
      runSeq (fun e s1 => Node.transmit_what_elem n e to_whom now s1) xs s
  | some (WhatArg.elem e) => Node.transmit_what_elem n e to_whom now s
  | some (WhatArg.listArg xs) =>
    runSeq (fun e s1 => Node.transmit_what_elem n e to_whom now s1) xs s

/-- `Network.agents` (models.py:367-375): Agent rows of this network, status
neither "failed" nor "dead", ordered by creation time. -/
def Network.agents (net : Network) (s : Store) : List Node :=
  (s.nodes.filter (fun m =>
      m.type == NodeType.agent && !(m.status == NodeStatus.failed) &&
        m.network_uuid == some net.uuid && !(m.status == NodeStatus.dead))).insertionSort
    (fun a b => a.creation_time ≤ b.creation_time)

/-- `Network.sources` (models.py:377-383): Source rows of this network,
ordered by creation time.  The query applies NO status filter. -/
def Network.sources (net : Network) (s : Store) : List Node :=
  (s.nodes.filter (fun m =>
      m.type == NodeType.source && m.network_uuid == some net.uuid)).insertionSort
    (fun a b => a.creation_time ≤ b.creation_time)

/-- `Network.get_degrees` (models.py:397-398): the OUTdegree of each agent, in
agent order. -/
def Network.get_degrees (net : Network) (s : Store) : List Nat :=
  (Network.agents net s).map (fun a => Node.outdegree a s)

/-- Assignment `node.network = net` acting on the session (used both for the
source itself and through the `Vector.network` association proxy, which
forwards the assignment to the vector's origin node). -/
def Store.set_node_network (s : Store) (u : String) (netUuid : String) : Store :=
  { s with nodes := s.nodes.map (fun m =>
      if m.uuid == u then { m with network_uuid := some netUuid } else m) }

/-- `Network.add_source_global` (models.py:403-411): connect the source to
every current agent, then set `source.network = self` and, for each created
vector, `vector.network = self` (an association-proxy write that re-assigns
the origin's network); return the created vectors. -/
def Network.add_source_global (net : Network) (source : Node) (s : Store) :
    List Vector × Store :=
  let step : List Vector × Store → Node → List Vector × Store := fun acc agent =>
    let vs := Node.connect_to source agent acc.2
    (acc.1 ++ [vs.1], vs.2)
  let r := (Network.agents net s).foldl step ([], s)
  let s2 := Store.set_node_network r.2 source.uuid net.uuid
  let s3 := r.1.foldl (fun st v => Store.set_node_network st v.origin_uuid net.uuid) s2
  (r.1, s3)

end Wallace

namespace DallingerDb

/-- The outcome of one attempt of the wrapped function plus commit inside the
`serialized` decorator of src/dallinger/db.py: a returned value, an
`OperationalError` whose `orig` is a `TransactionRollbackError`
(serialization conflict), or any other exception (re-raised unchanged). -/
inductive Attempt (α : Type)
  | success : α → Attempt α
  | conflict : Attempt α
  | failure : Attempt α
deriving DecidableEq, Repr

/-- What a call of a `serialized`-wrapped function can produce: the wrapped
function's value; Python `None`, produced by falling off the end of the
`while` loop; the `Exception` of the budget-exhausted branch; or a re-raised
non-conflict exception. -/
inductive SerializedResult (α : Type)
  | value : α → SerializedResult α
  | pyNone : SerializedResult α
  | budgetError : SerializedResult α
  | reraised : SerializedResult α
deriving DecidableEq, Repr

/-- The `while attempts > 0` loop of `serialized` (db.py:86-103).  `f k` is
the outcome of the k-th attempt.  On a conflict the code tests
`if attempts > 0` — the very condition the loop guard has just established on
the still-undecremented counter — so the test is always true, the counter is
decremented and the loop retries; the `raise Exception('Could not commit
serialized transaction after 100 attempts.')` branch is unreachable.  When
the counter reaches 0 the loop exits and the function implicitly returns
Python `None`. -/
def serializedLoop {α : Type} (f : Nat → Attempt α) : Nat → Nat → SerializedResult α
  | _, 0 => SerializedResult.pyNone
  | k, attempts + 1 =>
    match f k with
    | Attempt.success a => SerializedResult.value a
    | Attempt.conflict =>
      if attempts + 1 > 0 then serializedLoop f (k + 1) attempts
      else SerializedResult.budgetError
    | Attempt.failure => SerializedResult.reraised

/-- `serialized` (db.py:77-104): run the wrapped function in a SERIALIZABLE
transaction, starting with `attempts = 100`. -/
def serialized {α : Type} (f : Nat → Attempt α) : SerializedResult α :=
  serializedLoop f 0 100

end DallingerDb

namespace Wallace

instance : IsTotal Transmission (fun a b => a.transmit_time ≤ b.transmit_time) :=
  ⟨fun a b => Nat.le_total a.transmit_time b.transmit_time⟩

instance : IsTrans Transmission (fun a b => a.transmit_time ≤ b.transmit_time) :=
  ⟨fun _ _ _ h1 h2 => Nat.le_trans h1 h2⟩

instance : IsTotal Node (fun a b => a.creation_time ≤ b.creation_time) :=
  ⟨fun a b => Nat.le_total a.creation_time b.creation_time⟩

instance : IsTrans Node (fun a b => a.creation_time ≤ b.creation_time) :=
  ⟨fun _ _ _ h1 h2 => Nat.le_trans h1 h2⟩

/-- An alive base node used as a template for concrete scenarios. -/
def baseNode (u : String) (ty : NodeType) (created : Nat) (net : Option String) : Node :=
  { uuid := u
    type := ty
    creation_time := created
    status := NodeStatus.alive
    time_of_death := none
    network_uuid := net
    participant_uuid := none }

/-- An empty session. -/
def emptyStore : Store :=
  { nodes := [], vectors := [], infos := [], transmissions := [], transformations := []
    fresh := 0 }

/-- C1 scenario: a fresh Info with null contents. -/
def iC1 : Info := { uuid := "i1", origin_uuid := "n1", creation_time := 0, contents := none }

/-- C2 scenario, first part: agent n2 is connected to agent a2 and owns Info
i2, so the claim expects `transmit(i2, a2)` to create exactly one
Transmission. -/
def nC2 : Node := baseNode "n2" NodeType.agent 1 none

def aC2 : Node := baseNode "a2" NodeType.agent 2 none

def iC2 : Info := { uuid := "i2", origin_uuid := "n2", creation_time := 3, contents := some "x" }

def sC2 : Store :=
  { emptyStore with
    nodes := [nC2, aC2]
    vectors := [{ uuid := "v2", origin_uuid := "n2", destination_uuid := "a2",
                  status := VectorStatus.alive, time_of_death := none }]
    infos := [iC2] }

/-- C2 scenario, second part: node m2 has no outgoing vectors and no authored
Info rows, so both default policy hooks resolve to the empty set. -/
def mC2 : Node := baseNode "m2" NodeType.agent 1 none

/-- An Info authored by m2 (held as an in-memory object, as `transmit` takes
it). -/
def jC2 : Info := { uuid := "j2", origin_uuid := "m2", creation_time := 2, contents := some "y" }

def tC2 : Store := { emptyStore with nodes := [mC2] }

/-- C3 scenario: agents a31 and a32 with no Vector between them; i3 is
authored by a31. -/
def a1C3 : Node := baseNode "a31" NodeType.agent 1 none

def a2C3 : Node := baseNode "a32" NodeType.agent 2 none

def iC3 : Info := { uuid := "i3", origin_uuid := "a31", creation_time := 3, contents := some "z" }

def sC3 : Store := { emptyStore with nodes := [a1C3, a2C3], infos := [iC3] }

/-- C4 scenario: an alive node. -/
def nC4 : Node := baseNode "n4" NodeType.base 0 none

/-- C5 scenario: node n5 has two unreceived inbound Transmissions (out of
transmit-time order in the table), one already-received one, and there is an
unrelated Transmission for another node. -/
def nC5 : Node := baseNode "n5" NodeType.agent 0 none

def oC5 : Node := baseNode "o5" NodeType.agent 1 none

def i5a : Info := { uuid := "i5a", origin_uuid := "o5", creation_time := 1, contents := some "a" }

def i5b : Info := { uuid := "i5b", origin_uuid := "o5", creation_time := 2, contents := some "b" }

def sC5 : Store :=
  { emptyStore with
    nodes := [nC5, oC5]
    infos := [i5a, i5b]
    transmissions :=
      [{ uuid := "t1", info_uuid := "i5a", transmit_time := 4, receive_time := none,
         destination_uuid := "n5" },
       { uuid := "t2", info_uuid := "i5b", transmit_time := 2, receive_time := none,
         destination_uuid := "n5" },
       { uuid := "t3", info_uuid := "i5a", transmit_time := 1, receive_time := some 3,
         destination_uuid := "n5" },
       { uuid := "t4", info_uuid := "i5b", transmit_time := 1, receive_time := none,
         destination_uuid := "o5" }] }

/-- C7 scenario: network net7 holds a failed source, an alive source and a
dead agent. -/
def netC7 : Network := { uuid := "net7", creation_time := 0 }

def fsC7 : Node :=
  { baseNode "fs7" NodeType.source 1 (some "net7") with
    status := NodeStatus.failed, time_of_death := some 9 }

def osC7 : Node := baseNode "os7" NodeType.source 2 (some "net7")

def daC7 : Node :=
  { baseNode "da7" NodeType.agent 3 (some "net7") with
    status := NodeStatus.dead, time_of_death := some 9 }

def sC7 : Store := { emptyStore with nodes := [fsC7, osC7, daC7] }

/-- C8 scenario: network net8 with exactly the two alive agents a81 and a82,
and an unattached source s8. -/
def netC8 : Network := { uuid := "net8", creation_time := 0 }

def srcC8 : Node := baseNode "s8" NodeType.source 0 none

def a1C8 : Node := baseNode "a81" NodeType.agent 1 (some "net8")

def a2C8 : Node := baseNode "a82" NodeType.agent 2 (some "net8")

def sC8 : Store := { emptyStore with nodes := [srcC8, a1C8, a2C8] }

/-- C9 scenario: vectors a9 -> n9 and n9 -> b9, with a9 and b9 agents. -/
def aC9 : Node := baseNode "a9" NodeType.agent 1 none

def nC9 : Node := baseNode "n9" NodeType.base 2 none

def bC9 : Node := baseNode "b9" NodeType.agent 3 none

def sC9 : Store :=
  { emptyStore with
    nodes := [aC9, nC9, bC9]
    vectors := [{ uuid := "v91", origin_uuid := "a9", destination_uuid := "n9",
                  status := VectorStatus.alive, time_of_death := none },
                { uuid := "v92", origin_uuid := "n9", destination_uuid := "b9",
                  status := VectorStatus.alive, time_of_death := none }] }

/-- C10 scenario: a populated session in which node n1 is killed. -/
def n1C10 : Node := baseNode "n1" NodeType.agent 1 (some "netA")

def n2C10 : Node := baseNode "n2" NodeType.agent 2 (some "netA")

def sC10 : Store :=
  { emptyStore with
    nodes := [n1C10, n2C10]
    vectors := [{ uuid := "v10", origin_uuid := "n1", destination_uuid := "n2",
                  status := VectorStatus.alive, time_of_death := none }]
    infos := [{ uuid := "i10", origin_uuid := "n1", creation_time := 3, contents := some "c" }]
    transmissions := [{ uuid := "t10", info_uuid := "i10", transmit_time := 4,
                        receive_time := none, destination_uuid := "n2" }]
    transformations := [{ uuid := "tr10", node_uuid := "n1", info_in_uuid := "i10",
                          info_out_uuid := "i10", transform_time := 5 }] }

/-- C1: for every Info, the first assignment of a non-null contents value
succeeds, and every subsequent assignment attempt — even of the same value —
fails with the write-once violation error, leaving the stored contents
unchanged (the failed attempt returns the record as it was). -/
theorem info_contents_write_once (i : Info) (v : String) (h : i.contents = none) :
    Info.assign_contents i (some v) = ({ i with contents := some v }, none)
    ∧ ∀ w : Option String,
        Info.assign_contents { i with contents := some v } w =
          ({ i with contents := some v }, some Err.writeOnceViolation) := by
  constructor
  · unfold Info.assign_contents
    rw [h]
  · intro w
    rfl

/-- C1 witness: the scenario at the concrete Info iC1. -/
theorem info_contents_write_once_witness :
    Info.assign_contents iC1 (some "x") = ({ iC1 with contents := some "x" }, none)
    ∧ Info.assign_contents { iC1 with contents := some "x" } (some "x") =
        ({ iC1 with contents := some "x" }, some Err.writeOnceViolation) :=
  ⟨(info_contents_write_once iC1 "x" rfl).1,
   (info_contents_write_once iC1 "x" rfl).2 (some "x")⟩

/-- C4 counterexample: a second `kill()` is not a no-op — it re-stamps
time_of_death with the new clock value — and `fail()` after `kill()` raises
nothing: it simply moves the status from "dead" to "failed". -/
theorem kill_noop_claim_cex :
    ¬ (Node.kill (Node.kill nC4 1) 2).time_of_death = (Node.kill nC4 1).time_of_death
    ∧ (Node.fail (Node.kill nC4 1) 2).status = NodeStatus.failed := by
  decide

/-- C4 (amended): `kill()` sets status to "dead" and stamps time_of_death; a
second `kill()` keeps status "dead" but re-stamps time_of_death with the new
current time; `fail()` after `kill()` raises no error and sets status to
"failed", re-stamping time_of_death. -/
theorem kill_restamps_and_fail_crosses (n : Node) (t1 t2 : Nat) :
    (Node.kill n t1).status = NodeStatus.dead
    ∧ (Node.kill n t1).time_of_death = some t1
    ∧ (Node.kill (Node.kill n t1) t2).status = NodeStatus.dead
    ∧ (Node.kill (Node.kill n t1) t2).time_of_death = some t2
    ∧ (Node.fail (Node.kill n t1) t2).status = NodeStatus.failed
    ∧ (Node.fail (Node.kill n t1) t2).time_of_death = some t2 :=
  ⟨rfl, rfl, rfl, rfl, rfl, rfl⟩

/-- C9: the deprecated accessors do NOT compute what their replacements
compute — they raise `NameError` on every access, because they call the
class-level properties `downstream_nodes` and `upstream_nodes` as
module-level functions; moreover `upstream_nodes` itself returns the
DESTINATION of each incoming vector (the node itself), not the origin: with
vectors a9 -> n9 and n9 -> b9, `upstream_nodes` of n9 is [n9], while the
origin of its incoming vector is a9 (as `predecessors` shows). -/
theorem deprecated_accessors_nameError_and_upstream_bug :
    Node.successors2 nC9 sC9 = Except.error Err.nameError
    ∧ Node.predecessors2 nC9 sC9 = Except.error Err.nameError
    ∧ Node.upstream_nodes nC9 sC9 = [nC9]
    ∧ Node.downstream_nodes nC9 sC9 = [bC9]
    ∧ Node.predecessors nC9 sC9 = [aC9] :=
  ⟨rfl, rfl, by decide, by decide, by decide⟩

/-- C3: with no Vector from a31 to a32, `a31.transmit(i3, a32)` does NOT
raise the not-connected error — it raises `NameError` out of
`has_connection_to` / `successors2`; and after `connect_to` has created the
vector, the same call still raises `NameError` and creates no Transmission,
instead of succeeding with exactly one. -/
theorem transmit_connection_scenario_nameError :
    Node.transmit a1C3 (some (WhatArg.elem (WhatElem.inst iC3)))
        (some (ToWhomArg.elem (ToWhomElem.inst a2C3))) 5 sC3 = (sC3, some Err.nameError)
    ∧ ((Node.connect_to a1C3 a2C3 sC3).2.vectors.map
        (fun v => (v.origin_uuid, v.destination_uuid)) = [("a31", "a32")])
    ∧ Node.transmit a1C3 (some (WhatArg.elem (WhatElem.inst iC3)))
        (some (ToWhomArg.elem (ToWhomElem.inst a2C3))) 6 (Node.connect_to a1C3 a2C3 sC3).2 =
        ((Node.connect_to a1C3 a2C3 sC3).2, some Err.nameError) := by
  refine ⟨?_, ?_, ?_⟩ <;> decide

/-- C8 counterexample: the `add_source_global` scenario does create two
vectors, but `N.get_degrees()` is [0, 0], not [1, 1]: `get_degrees` reports
agent OUTdegrees and both new vectors originate at the source. -/
theorem add_source_global_degrees_cex :
    (Network.add_source_global netC8 srcC8 sC8).1.length = 2
    ∧ ¬ Network.get_degrees netC8 (Network.add_source_global netC8 srcC8 sC8).2 = [1, 1] := by
  decide

/-- C8 (amended): `add_source_global(S)` on a network with exactly the agents
a81 and a82 creates and returns exactly two Vectors, from S to a81 and from S
to a82, which are persisted; afterwards `N.get_degrees()` equals [0, 0],
because `get_degrees` reports each agent's outdegree and the new Vectors
originate at the source. -/
theorem add_source_global_two_vectors_degrees_zero :
    (Network.add_source_global netC8 srcC8 sC8).1.map
        (fun v => (v.origin_uuid, v.destination_uuid)) = [("s8", "a81"), ("s8", "a82")]
    ∧ (Network.add_source_global netC8 srcC8 sC8).2.vectors =
        (Network.add_source_global netC8 srcC8 sC8).1
    ∧ Network.get_degrees netC8 (Network.add_source_global netC8 srcC8 sC8).2 = [0, 0] := by
  refine ⟨?_, ?_, ?_⟩ <;> decide

/- Helper lemmas: every delivery leaf of `transmit` aborts with `NameError`
before mutating anything, so the whole dispatch never changes the session. -/

theorem transmit_to_node_eq (n : Node) (i : Info) (w : Node) (now : Nat) (s : Store) :
    Node.transmit_to_node n i w now s = (s, some Err.nameError) :=
  rfl

theorem runSeq_fst {α : Type} (f : α → Store → Store × Option Err)
    (hf : ∀ x s, (f x s).1 = s) :
    ∀ (xs : List α) (s : Store), (runSeq f xs s).1 = s
  | [], _ => rfl
  | x :: xs, s => by
    rcases hfx : f x s with ⟨s1, e⟩
    have h : s1 = s := by
      have h0 := hf x s
      rw [hfx] at h0
      exact h0
    subst h
    cases e with
    | none =>
      have ih := runSeq_fst f hf xs s1
      simp [runSeq, hfx, ih]
    | some err =>
      simp [runSeq, hfx]

theorem transmit_info_to_elem_fst (n : Node) (i : Info) (now : Nat) (e : ToWhomElem)
    (s : Store) : (Node.transmit_info_to_elem n i now e s).1 = s := by
  cases e with
  | inst w => simp [Node.transmit_info_to_elem, transmit_to_node_eq]
  | nodeCls c =>
    exact runSeq_fst _ (fun w s1 => by rw [transmit_to_node_eq]) _ s

theorem transmit_info_fst (n : Node) (i : Info) (tw : Option ToWhomArg) (now : Nat)
    (s : Store) : (Node.transmit_info n i tw now s).1 = s := by
  by_cases hb : (i.origin_uuid != n.uuid) = true
  · simp [Node.transmit_info, hb]
  · rw [Bool.not_eq_true] at hb
    cases tw with
    | none =>
      simp [Node.transmit_info, hb, Node._to_whom, transmit_info_to_elem_fst]
    | some twa =>
      cases twa with
      | elem e => simp [Node.transmit_info, hb, transmit_info_to_elem_fst]
      | listArg xs =>
        simp only [Node.transmit_info, hb, Bool.false_eq_true, if_false]
        exact runSeq_fst _ (fun e s1 => transmit_info_to_elem_fst n i now e s1) xs s

theorem transmit_what_elem_fst (n : Node) (e : WhatElem) (tw : Option ToWhomArg)
    (now : Nat) (s : Store) : (Node.transmit_what_elem n e tw now s).1 = s := by
  cases e with
  | inst i => simp [Node.transmit_what_elem, transmit_info_fst]
  | infoCls =>
    simp only [Node.transmit_what_elem]
    exact runSeq_fst _ (fun i s1 => transmit_info_fst n i tw now s1) _ s

/-- C2 (amended): `transmit` never creates a Transmission at all — every
delivery to a concrete destination raises `NameError` out of
`has_connection_to` / `successors2` before the Transmission is made, so the
session is returned unchanged for every argument shape; and whenever
resolution of recipients or content yields an empty set (empty successor
list for the default `_to_whom()` hook, no authored Infos for the default
`_what()` hook), the call completes silently: no EmptyRecipientError or
EmptyContentError exists, zero Transmissions are created and no error is
raised. -/
theorem transmit_creates_nothing_and_empty_resolution_is_silent
    (n : Node) (what : Option WhatArg) (tw : Option ToWhomArg) (now : Nat) (s : Store)
    (i : Info) (hown : i.origin_uuid = n.uuid) :
    (Node.transmit n what tw now s).1 = s
    ∧ (Node.successors n s = [] →
        Node.transmit n (some (WhatArg.elem (WhatElem.inst i))) none now s = (s, none))
    ∧ (s.infos.filter (fun j => j.origin_uuid == n.uuid) = [] →
        Node.transmit n none tw now s = (s, none)) := by
  refine ⟨?_, ?_, ?_⟩
  · cases what with
    | none => simp [Node.transmit, Node._what, transmit_what_elem_fst]
    | some wa =>
      cases wa with
      | elem e => simp [Node.transmit, transmit_what_elem_fst]
      | listArg xs =>
        simp only [Node.transmit]
        exact runSeq_fst _ (fun e s1 => transmit_what_elem_fst n e tw now s1) xs s
  · intro hsucc
    simp [Node.transmit, Node.transmit_what_elem, Node.transmit_info, hown,
      Node._to_whom, Node.transmit_info_to_elem, Node.resolve_to_class, hsucc, runSeq]
  · intro hinfos
    simp [Node.transmit, Node._what, Node.transmit_what_elem, Node.infos_by_recency,
      hinfos, List.insertionSort, runSeq]

/-- C2 witness: at the concrete node m2 (no successors, no authored Info
rows) with its in-memory Info j2, both empty-resolution calls return the
session unchanged with no error. -/
theorem transmit_empty_silent_witness :
    (Node.transmit mC2 (some (WhatArg.elem (WhatElem.inst jC2))) none 9 tC2).1 = tC2
    ∧ Node.transmit mC2 (some (WhatArg.elem (WhatElem.inst jC2))) none 9 tC2 = (tC2, none)
    ∧ Node.transmit mC2 none none 9 tC2 = (tC2, none) :=
  have h := transmit_creates_nothing_and_empty_resolution_is_silent mC2
    (some (WhatArg.elem (WhatElem.inst jC2))) none 9 tC2 jC2 rfl
  ⟨h.1, h.2.1 (by decide), h.2.2 (by decide)⟩

/-- C2 counterexample: with n2 connected to a2 and owning i2, the claim
demands exactly one Transmission from `transmit(i2, a2)` — the code raises
`NameError` and creates none; and with m2 resolving both hooks to the empty
set, the claim demands an error — the code returns silently. -/
theorem transmit_pairs_and_empty_error_cex :
    Node.transmit nC2 (some (WhatArg.elem (WhatElem.inst iC2)))
        (some (ToWhomArg.elem (ToWhomElem.inst aC2))) 9 sC2 = (sC2, some Err.nameError)
    ∧ Node.transmit mC2 (some (WhatArg.elem (WhatElem.inst jC2))) none 8 tC2 = (tC2, none)
    ∧ Node.transmit mC2 none none 8 tC2 = (tC2, none) := by
  refine ⟨?_, ?_, ?_⟩ <;> decide

/- Helper lemma for C5: after the stamping pass of `receive_all`, the
destination/unreceived condition holds for no transmission row. -/

theorem filter_stamped_eq_nil (n : Node) (now : Nat) :
    ∀ ts : List Transmission,
      ((ts.map (fun t =>
          if t.destination_uuid == n.uuid && t.receive_time == none then
            { t with receive_time := some now }
          else t)).filter
        (fun t => t.destination_uuid == n.uuid && t.receive_time == none)) = []
  | [] => rfl
  | t :: ts => by
    have ih := filter_stamped_eq_nil n now ts
    by_cases h : (t.destination_uuid == n.uuid && t.receive_time == none) = true
    · simp only [List.map_cons, h, if_true, List.filter_cons]
      have hfalse : ((({ t with receive_time := some now } : Transmission)).destination_uuid
          == n.uuid
          && (({ t with receive_time := some now } : Transmission)).receive_time == none)
          = false := by
        simp
      rw [hfalse]
      simpa using ih
    · rw [Bool.not_eq_true] at h
      simp only [List.map_cons, h, if_false, List.filter_cons, Bool.false_eq_true]
      exact ih

theorem pending_after_receive_all (n : Node) (now : Nat) (s : Store) :
    Node.pending_transmissions n (Node.receive_all n now s).1 = [] := by
  unfold Node.pending_transmissions Node.receive_all
  simp only []
  rw [filter_stamped_eq_nil]
  rfl

/-- C5: `receive_all` selects exactly the Transmissions destined for the node
whose receive time is null (the pending list is a permutation of that filter
and is ordered by transmit time), stamps each of them with the current time,
and hands the update hook the ordered list of their Info payloads exactly
once; it is idempotent with respect to already-received Transmissions: after
one call nothing is pending any more, so a second call delivers the empty
list — each Transmission's content reaches the hook exactly once across the
two calls. -/
theorem receive_all_delivers_each_transmission_once (n : Node) (t1 t2 : Nat) (s : Store) :
    (Node.receive_all n t1 s).2 =
        (Node.pending_transmissions n s).map (fun t => Store.getInfo s t.info_uuid)
    ∧ List.Perm (Node.pending_transmissions n s)
        (s.transmissions.filter
          (fun t => t.destination_uuid == n.uuid && t.receive_time == none))
    ∧ (Node.pending_transmissions n s).Pairwise (fun a b => a.transmit_time ≤ b.transmit_time)
    ∧ (Node.receive_all n t1 s).1.transmissions = s.transmissions.map (fun t =>
        if t.destination_uuid == n.uuid && t.receive_time == none then
          { t with receive_time := some t1 }
        else t)
    ∧ Node.pending_transmissions n (Node.receive_all n t1 s).1 = []
    ∧ (Node.receive_all n t2 (Node.receive_all n t1 s).1).2 = [] := by
  refine ⟨rfl, ?_, ?_, rfl, pending_after_receive_all n t1 s, ?_⟩
  · exact List.perm_insertionSort _ _
  · exact List.sorted_insertionSort _ _
  · have h := pending_after_receive_all n t1 s
    show (Node.pending_transmissions n (Node.receive_all n t1 s).1).map _ = []
    rw [h]
    rfl

/-- C5 witness: at the concrete session sC5, the first call delivers the two
pending payloads in transmit-time order, after which nothing is pending and
a second call delivers nothing. -/
theorem receive_all_once_witness :
    Node.pending_transmissions nC5 (Node.receive_all nC5 6 sC5).1 = []
    ∧ (Node.receive_all nC5 7 (Node.receive_all nC5 6 sC5).1).2 = []
    ∧ (Node.receive_all nC5 6 sC5).2 = [some i5b, some i5a] :=
  ⟨(receive_all_delivers_each_transmission_once nC5 6 7 sC5).2.2.2.2.1,
   (receive_all_delivers_each_transmission_once nC5 6 7 sC5).2.2.2.2.2,
   ((receive_all_delivers_each_transmission_once nC5 6 7 sC5).1).trans (by decide)⟩

/-- C7 counterexample: a source with status "failed" IS returned by
`N.sources` — the sources query applies no status filter at all. -/
theorem sources_include_failed_cex :
    fsC7 ∈ Network.sources netC7 sC7
    ∧ fsC7.status = NodeStatus.failed
    ∧ Network.sources netC7 sC7 = [fsC7, osC7] := by
  refine ⟨?_, ?_, ?_⟩ <;> decide

/-- C7 (amended): `N.sources` returns ALL member nodes of role Source ordered
by creation time, with no status filtering whatsoever (failed and dead
sources included); only `N.agents` excludes failed and dead nodes. -/
theorem sources_unfiltered_agents_filtered (net : Network) (s : Store) (m : Node) :
    (m ∈ Network.sources net s ↔
      m ∈ s.nodes ∧ m.type = NodeType.source ∧ m.network_uuid = some net.uuid)
    ∧ (m ∈ Network.agents net s ↔
      m ∈ s.nodes ∧ m.type = NodeType.agent ∧ m.network_uuid = some net.uuid
        ∧ m.status ≠ NodeStatus.failed ∧ m.status ≠ NodeStatus.dead)
    ∧ (Network.sources net s).Pairwise (fun a b => a.creation_time ≤ b.creation_time)
    ∧ (Network.agents net s).Pairwise (fun a b => a.creation_time ≤ b.creation_time) := by
  refine ⟨?_, ?_, ?_, ?_⟩
  · unfold Network.sources
    rw [List.mem_insertionSort, List.mem_filter]
    simp [and_assoc]
  · unfold Network.agents
    rw [List.mem_insertionSort, List.mem_filter]
    simp only [Bool.and_eq_true, beq_iff_eq, Bool.not_eq_true', beq_eq_false_iff_ne]
    constructor
    · rintro ⟨hm, ⟨⟨⟨h1, h2⟩, h3⟩, h4⟩⟩
      exact ⟨hm, h1, h3, h2, h4⟩
    · rintro ⟨hm, h1, h3, h2, h4⟩
      exact ⟨hm, ⟨⟨⟨h1, h2⟩, h3⟩, h4⟩⟩
  · exact List.sorted_insertionSort _ _
  · exact List.sorted_insertionSort _ _

/-- C7 witness: the amended statement at the concrete failed source fsC7 of
network net7. -/
theorem sources_unfiltered_witness :
    (fsC7 ∈ Network.sources netC7 sC7 ↔
      fsC7 ∈ sC7.nodes ∧ fsC7.type = NodeType.source ∧ fsC7.network_uuid = some netC7.uuid)
    ∧ (fsC7 ∈ Network.agents netC7 sC7 ↔
      fsC7 ∈ sC7.nodes ∧ fsC7.type = NodeType.agent ∧ fsC7.network_uuid = some netC7.uuid
        ∧ fsC7.status ≠ NodeStatus.failed ∧ fsC7.status ≠ NodeStatus.dead)
    ∧ (Network.sources netC7 sC7).Pairwise (fun a b => a.creation_time ≤ b.creation_time)
    ∧ (Network.agents netC7 sC7).Pairwise (fun a b => a.creation_time ≤ b.creation_time) :=
  sources_unfiltered_agents_filtered netC7 sC7 fsC7

/-- C10: `kill()` and `fail()` on a node leave every other entity in the
session untouched — vectors (and their statuses), infos, transmissions and
transformations are unchanged — and on the node table they preserve every
node's uuid, creation_time, type, network and participant references,
leaving every node other than the killed one entirely unchanged. -/
theorem kill_fail_frame (u : String) (now : Nat) (s : Store) :
    (Store.killNode s u now).vectors = s.vectors
    ∧ (Store.killNode s u now).infos = s.infos
    ∧ (Store.killNode s u now).transmissions = s.transmissions
    ∧ (Store.killNode s u now).transformations = s.transformations
    ∧ List.Forall₂ (fun m0 m1 =>
        m1.uuid = m0.uuid ∧ m1.creation_time = m0.creation_time ∧ m1.type = m0.type
          ∧ m1.network_uuid = m0.network_uuid ∧ m1.participant_uuid = m0.participant_uuid
          ∧ (m0.uuid ≠ u → m1 = m0))
        s.nodes (Store.killNode s u now).nodes
    ∧ (Store.failNode s u now).vectors = s.vectors
    ∧ (Store.failNode s u now).infos = s.infos
    ∧ (Store.failNode s u now).transmissions = s.transmissions
    ∧ (Store.failNode s u now).transformations = s.transformations
    ∧ List.Forall₂ (fun m0 m1 =>
        m1.uuid = m0.uuid ∧ m1.creation_time = m0.creation_time ∧ m1.type = m0.type
          ∧ m1.network_uuid = m0.network_uuid ∧ m1.participant_uuid = m0.participant_uuid
          ∧ (m0.uuid ≠ u → m1 = m0))
        s.nodes (Store.failNode s u now).nodes := by
  refine ⟨rfl, rfl, rfl, rfl, ?_, rfl, rfl, rfl, rfl, ?_⟩
  · rw [show (Store.killNode s u now).nodes =
        s.nodes.map (fun m => if m.uuid == u then Node.kill m now else m) from rfl]
    rw [List.forall₂_map_right_iff]
    rw [List.forall₂_same]
    intro m _
    by_cases h : m.uuid = u
    · simp [h, Node.kill]
    · simp [h, Node.kill]
  · rw [show (Store.failNode s u now).nodes =
        s.nodes.map (fun m => if m.uuid == u then Node.fail m now else m) from rfl]
    rw [List.forall₂_map_right_iff]
    rw [List.forall₂_same]
    intro m _
    by_cases h : m.uuid = u
    · simp [h, Node.fail]
    · simp [h, Node.fail]

/-- C10 witness: the frame condition at the concrete session sC10, killing
node n1. -/
theorem kill_fail_frame_witness :
    (Store.killNode sC10 "n1" 7).vectors = sC10.vectors
    ∧ (Store.killNode sC10 "n1" 7).transmissions = sC10.transmissions
    ∧ List.Forall₂ (fun m0 m1 =>
        m1.uuid = m0.uuid ∧ m1.creation_time = m0.creation_time ∧ m1.type = m0.type
          ∧ m1.network_uuid = m0.network_uuid ∧ m1.participant_uuid = m0.participant_uuid
          ∧ (m0.uuid ≠ "n1" → m1 = m0))
        sC10.nodes (Store.killNode sC10 "n1" 7).nodes :=
  ⟨(kill_fail_frame "n1" 7 sC10).1,
   (kill_fail_frame "n1" 7 sC10).2.2.1,
   (kill_fail_frame "n1" 7 sC10).2.2.2.2.1⟩

end Wallace

namespace DallingerDb

/-- C6: when every attempt fails with a serialization conflict, the
`serialized` wrapper does NOT surface a fatal error after its budget of 100
attempts: the guard `if attempts > 0` inside the except-clause re-tests the
loop condition on the still-undecremented counter, so the
budget-exhausted `raise` is unreachable and the call silently returns
Python `None`.  The second conjunct shows the attempt budget is exactly 100:
a function that would succeed on its 101st attempt is never asked; the third
shows a conflict-then-success run inside the budget does return the value. -/
theorem serialized_exhausts_budget_returns_none :
    serialized (fun _ => (Attempt.conflict : Attempt Unit)) = SerializedResult.pyNone
    ∧ serialized (fun k => if k < 100 then (Attempt.conflict : Attempt Unit)
        else Attempt.success ()) = SerializedResult.pyNone
    ∧ serialized (fun k => if k < 99 then (Attempt.conflict : Attempt Unit)
        else Attempt.success ()) = SerializedResult.value () := by
  refine ⟨?_, ?_, ?_⟩ <;> decide

end DallingerDb
